import Mathlib

/-!
# Verification of the GitHub → Telegram webhook relay

A shallow embedding of the webhook ingress pipeline of the repository
(the Express handlers in `src/main.ts` and the signature-verifying
variant in `src/unnamed/part_000`), together with proofs about the
routing, signature-verification, payload-validation and
message-formatting behaviour.

Machine integers are modelled as `Nat` with explicit `% 2 ^ 32`
reductions where the source relies on 32-bit arithmetic
(`crypto.createHmac('sha256', …)` is Node's HMAC-SHA-256, embedded here
in full).  Byte strings are `List Nat` with every element `< 256`.
-/

namespace GithubTelegram

/-! ## Bytes, hex encoding, UTF-8

`Buffer`s are `List Nat` of bytes.  `utf8Bytes` is the UTF-8 encoding
Node applies to JavaScript strings when they are fed to `crypto`
functions. -/

/-- UTF-8 encoding of a single code point. -/
def utf8EncodeChar (c : Char) : List Nat :=
  let n := c.toNat
  if n < 0x80 then [n]
  else if n < 0x800 then
    [0xC0 + n / 0x40, 0x80 + n % 0x40]
  else if n < 0x10000 then
    [0xE0 + n / 0x1000, 0x80 + n / 0x40 % 0x40, 0x80 + n % 0x40]
  else
    [0xF0 + n / 0x40000, 0x80 + n / 0x1000 % 0x40, 0x80 + n / 0x40 % 0x40,
      0x80 + n % 0x40]

/-- UTF-8 encoding of a string, as Node's `Buffer.from(s, 'utf8')`. -/
def utf8Bytes (s : String) : List Nat :=
  (s.data.map utf8EncodeChar).flatten

/-- The lowercase hex digit for a value `< 16` (as produced by Node's
`digest('hex')`). -/
def hexDigit (n : Nat) : Char :=
  match n with
  | 0 => '0' | 1 => '1' | 2 => '2' | 3 => '3'
  | 4 => '4' | 5 => '5' | 6 => '6' | 7 => '7'
  | 8 => '8' | 9 => '9' | 10 => 'a' | 11 => 'b'
  | 12 => 'c' | 13 => 'd' | 14 => 'e' | _ => 'f'

/-- Lowercase hex rendering of a byte list, character list form. -/
def hexChars : List Nat → List Char
  | [] => []
  | b :: bs => hexDigit (b / 16) :: hexDigit (b % 16) :: hexChars bs

/-- Lowercase hex rendering of a byte list, as Node's
`hmac.digest('hex')`. -/
def hexEncode (bs : List Nat) : String := ⟨hexChars bs⟩

/-- Numeric value of a hex digit character, `none` for non-hex
characters.  Accepts both cases, as Node's hex decoder does. -/
def hexVal (c : Char) : Option Nat :=
  if '0' ≤ c ∧ c ≤ '9' then some (c.toNat - 48)
  else if 'a' ≤ c ∧ c ≤ 'f' then some (c.toNat - 87)
  else if 'A' ≤ c ∧ c ≤ 'F' then some (c.toNat - 55)
  else none

/-- Node's `Buffer.from(s, 'hex')`: decodes pairs of hex digits and
stops (silently truncating) at the first pair that is not two valid hex
digits, including a lone trailing digit. -/
def nodeHexDecode : List Char → List Nat
  | c1 :: c2 :: rest =>
    match hexVal c1, hexVal c2 with
    | some hi, some lo => (16 * hi + lo) :: nodeHexDecode rest
    | _, _ => []
  | _ => []

/-! ## SHA-256 (FIPS 180-4), as used by Node's `crypto` module -/

/-- Right rotation of a 32-bit word. -/
def rotr32 (n x : Nat) : Nat :=
  ((x >>> n) ||| (x <<< (32 - n))) % 2 ^ 32

/-- The SHA-256 round constants. -/
def sha256K : List Nat :=
  [1116352408, 1899447441, 3049323471, 3921009573, 961987163,
   1508970993, 2453635748, 2870763221, 3624381080, 310598401,
   607225278, 1426881987, 1925078388, 2162078206, 2614888103,
   3248222580, 3835390401, 4022224774, 264347078, 604807628,
   770255983, 1249150122, 1555081692, 1996064986, 2554220882,
   2821834349, 2952996808, 3210313671, 3336571891, 3584528711,
   113926993, 338241895, 666307205, 773529912, 1294757372,
   1396182291, 1695183700, 1986661051, 2177026350, 2456956037,
   2730485921, 2820302411, 3259730800, 3345764771, 3516065817,
   3600352804, 4094571909, 275423344, 430227734, 506948616,
   659060556, 883997877, 958139571, 1322822218, 1537002063,
   1747873779, 1955562222, 2024104815, 2227730452, 2361852424,
   2428436474, 2756734187, 3204031479, 3329325298]

/-- The eight 32-bit words of SHA-256 chaining state. -/
structure Sha256State where
  a : Nat
  b : Nat
  c : Nat
  d : Nat
  e : Nat
  f : Nat
  g : Nat
  h : Nat
deriving DecidableEq

/-- SHA-256 initial hash value. -/
def sha256Init : Sha256State :=
  ⟨1779033703, 3144134277, 1013904242,
   2773480762, 1359893119, 2600822924, 528734635, 1541459225⟩

/-- Big-endian 32-bit words from a byte list (groups of four). -/
def bytesToWords : List Nat → List Nat
  | b0 :: b1 :: b2 :: b3 :: rest =>
    (b0 * 0x1000000 + b1 * 0x10000 + b2 * 0x100 + b3) :: bytesToWords rest
  | _ => []

/-- Extend the 16-word message block by `k` further schedule words. -/
def sha256Extend (w : List Nat) : Nat → List Nat
  | 0 => w
  | k + 1 =>
    let i := w.length
    let w15 := w.getD (i - 15) 0
    let w2 := w.getD (i - 2) 0
    let s0 := rotr32 7 w15 ^^^ rotr32 18 w15 ^^^ (w15 >>> 3)
    let s1 := rotr32 17 w2 ^^^ rotr32 19 w2 ^^^ (w2 >>> 10)
    sha256Extend (w ++ [(w.getD (i - 16) 0 + s0 + w.getD (i - 7) 0 + s1) % 2 ^ 32]) k

/-- One SHA-256 round on the working variables. -/
def sha256Round (w : List Nat) (st : Sha256State) (t : Nat) : Sha256State :=
  let s1 := rotr32 6 st.e ^^^ rotr32 11 st.e ^^^ rotr32 25 st.e
  let ch := (st.e &&& st.f) ^^^ ((st.e ^^^ 0xFFFFFFFF) &&& st.g)
  let temp1 := (st.h + s1 + ch + sha256K.getD t 0 + w.getD t 0) % 2 ^ 32
  let s0 := rotr32 2 st.a ^^^ rotr32 13 st.a ^^^ rotr32 22 st.a
  let maj := (st.a &&& st.b) ^^^ (st.a &&& st.c) ^^^ (st.b &&& st.c)
  let temp2 := (s0 + maj) % 2 ^ 32
  ⟨(temp1 + temp2) % 2 ^ 32, st.a, st.b, st.c,
   (st.d + temp1) % 2 ^ 32, st.e, st.f, st.g⟩

/-- Compress one 64-byte block into the chaining state. -/
def sha256Compress (st : Sha256State) (block : List Nat) : Sha256State :=
  let w := sha256Extend (bytesToWords block) 48
  let v := (List.range 64).foldl (sha256Round w) st
  ⟨(st.a + v.a) % 2 ^ 32, (st.b + v.b) % 2 ^ 32, (st.c + v.c) % 2 ^ 32,
   (st.d + v.d) % 2 ^ 32, (st.e + v.e) % 2 ^ 32, (st.f + v.f) % 2 ^ 32,
   (st.g + v.g) % 2 ^ 32, (st.h + v.h) % 2 ^ 32⟩

/-- Split a byte list into 64-byte blocks (fuel-based so that it
reduces definitionally; the fuel `l.length` always suffices since every
step consumes at least one byte). -/
def chunks64Aux : Nat → List Nat → List (List Nat)
  | 0, _ => []
  | _, [] => []
  | fuel + 1, b :: bs => ((b :: bs).take 64) :: chunks64Aux fuel ((b :: bs).drop 64)

/-- Split a byte list into 64-byte blocks. -/
def chunks64 (l : List Nat) : List (List Nat) := chunks64Aux l.length l

/-- Big-endian bytes of one 32-bit word. -/
def wordBytes (w : Nat) : List Nat :=
  [w / 0x1000000 % 256, w / 0x10000 % 256, w / 0x100 % 256, w % 256]

/-- Big-endian bytes of a list of 32-bit words. -/
def wordsToBytes (ws : List Nat) : List Nat :=
  (ws.map wordBytes).flatten

/-- Big-endian 64-bit length field of the SHA-256 padding. -/
def lenBytes64 (n : Nat) : List Nat :=
  [n / 2 ^ 56 % 256, n / 2 ^ 48 % 256, n / 2 ^ 40 % 256, n / 2 ^ 32 % 256,
   n / 2 ^ 24 % 256, n / 2 ^ 16 % 256, n / 2 ^ 8 % 256, n % 256]

/-- SHA-256 padding: a `0x80` byte, zeros to 56 mod 64, then the
bit length as a big-endian 64-bit integer. -/
def sha256Pad (msg : List Nat) : List Nat :=
  msg ++ 0x80 :: List.replicate ((119 - msg.length % 64) % 64) 0
      ++ lenBytes64 (8 * msg.length)

/-- The words of the final chaining state, in output order. -/
def sha256Words (st : Sha256State) : List Nat :=
  [st.a, st.b, st.c, st.d, st.e, st.f, st.g, st.h]

/-- SHA-256 of a byte list, as a 32-byte list. -/
def sha256 (msg : List Nat) : List Nat :=
  wordsToBytes (sha256Words ((chunks64 (sha256Pad msg)).foldl sha256Compress sha256Init))

/-- HMAC-SHA-256 (RFC 2104), as Node's
`crypto.createHmac('sha256', key)`. -/
def hmacSha256 (key msg : List Nat) : List Nat :=
  let k0 := if 64 < key.length then sha256 key else key
  let kp := k0 ++ List.replicate (64 - k0.length) 0
  let ipad := kp.map (fun b => b ^^^ 0x36)
  let opad := kp.map (fun b => b ^^^ 0x5C)
  sha256 (opad ++ sha256 (ipad ++ msg))

end GithubTelegram

namespace GithubTelegram

/-! ## JavaScript values and truthiness

The parsed JSON body (`req.body`, produced by `bodyParser.json()`) is a
dynamic JavaScript value.  The handlers test the top-level fields with
`!pusher || !repository || !commits`, i.e. JavaScript truthiness, so we
embed parsed JSON values together with their truthiness. -/

/-- A parsed JSON value as JavaScript sees it (`NaN` cannot arise from
`JSON.parse`, so numbers are `Int`). -/
inductive Jv where
  | null
  | bool (b : Bool)
  | num (n : Int)
  | str (s : String)
  | arr (elems : List Jv)
  | obj (fields : List (String × Jv))

/-- JavaScript truthiness of a parsed JSON value: `null`, `false`, `0`
and `""` are falsy; every array and object (including `[]` and `{ }`)
is truthy. -/
def truthy : Jv → Bool
  | .null => false
  | .bool b => b
  | .num n => n != 0
  | .str s => s != ""
  | .arr _ => true
  | .obj _ => true

/-- Truthiness of a possibly-absent field (`undefined` is falsy). -/
def truthyOpt : Option Jv → Bool
  | none => false
  | some v => truthy v

/-! ## Data model

`GithubPushEvent` comes from `./github-interfaces`, which is not among
the provided sources; the structures below are modelled from the spec.
-/

/-- Modelled from the spec: the `author` object of a commit in
`github-interfaces.ts` (missing from `src/`): `optional {name}`;
the handlers access it as `c.author?.name ?? 'unknown'`. -/
structure CommitAuthor where
  name : String
deriving DecidableEq

/-- Modelled from the spec: a `Commit` of `github-interfaces.ts`
(missing from `src/`): `{id, message, url, author: optional {name},
added/modified/removed: sequences of file paths}`, the three file lists
optional as the handlers' `c.added?.length || 0` accesses show. -/
structure Commit where
  id : String
  message : String
  url : String
  author : Option CommitAuthor
  added : Option (List String)
  modified : Option (List String)
  removed : Option (List String)
deriving DecidableEq

/-- Modelled from the spec: the `pusher` object of a push event:
`{name}`. -/
structure Pusher where
  name : String
deriving DecidableEq

/-- Modelled from the spec: the `repository` object of a push event:
`{name, htmlUrl}`; the handlers access `repository.html_url`. -/
structure Repository where
  name : String
  html_url : String
deriving DecidableEq

/-- Modelled from the spec: a validated `GithubPushEvent`:
`{pusher, repository, commits}`. -/
structure PushEvent where
  pusher : Pusher
  repository : Repository
  commits : List Commit
deriving DecidableEq

/-- `chatId: number | string` of `ProjectConfig`. -/
inductive ChatId where
  | num (n : Int)
  | str (s : String)
deriving DecidableEq

/-- `ProjectConfig` of `src/unnamed/part_000`.  The TypeScript
declaration has `webhookSecret: string`, but the configs are read from
`config.json` by an unchecked cast and the handler guards with
`if (!secret)`, so the field is embedded as optional. -/
structure ProjectConfig where
  botToken : String
  chatId : ChatId
  threadId : Option Int
  webhookSecret : Option String
deriving DecidableEq

/-- `ProjectConfig` of `src/main.ts` (no `webhookSecret`). -/
structure MainProjectConfig where
  botToken : String
  chatId : ChatId
  threadId : Option Int
deriving DecidableEq

/-- An HTTP response: status code and body (for `res.json({error})`
responses the body is the error string). -/
structure HttpResponse where
  status : Nat
  body : String
deriving DecidableEq

/-- One outbound `axios.post` to the Telegram `sendMessage` endpoint
(the Notifier), with the fields the handlers send.  `chat_id` is `none`
when the handler sends a JavaScript `undefined` chat id (the JSON
serialisation then omits the field). -/
structure SendCall where
  url : String
  chat_id : Option ChatId
  message_thread_id : Option Int
  text : String
  parse_mode : String
  disable_web_page_preview : Bool
deriving DecidableEq

/-- The three top-level fields the handlers destructure from
`req.body`; `none` is an absent (`undefined`) field. -/
structure RequestBody where
  pusher : Option Jv
  repository : Option Jv
  commits : Option Jv

/-- An incoming `POST /webhook/:projectName` request: path parameter,
the two recognised headers, the captured raw body (`req.rawBody`, set
by the `verify` hook only for a non-empty buffer) and the parsed JSON
body. -/
structure RequestModel where
  projectName : String
  githubEvent : Option String
  signature256 : Option String
  rawBody : Option (List Nat)
  body : RequestBody

/-! ## Message formatting -/

/-- `c.author?.name ?? 'unknown'`. -/
def authorName (a : Option CommitAuthor) : String :=
  (a.map CommitAuthor.name).getD "unknown"

/-- `c.added?.length || 0`: the length of the list when present, `0`
when the field is absent (a present empty list also yields `0 || 0 =
0`). -/
def listCount (l : Option (List String)) : Nat :=
  (l.map List.length).getD 0

/-- The commit line both handlers emit for one commit. -/
def formatCommit (c : Commit) : String :=
  "- " ++ c.message ++ " ([" ++ c.id.take 7 ++ "](" ++ c.url ++ ")) by "
    ++ authorName c.author
    ++ " (added: " ++ toString (listCount c.added)
    ++ ", modified: " ++ toString (listCount c.modified)
    ++ ", removed: " ++ toString (listCount c.removed) ++ ")"

/-- `commits.map(...).join('\n')`. -/
def commitMessages (cs : List Commit) : String :=
  String.intercalate "\n" (cs.map formatCommit)

/-- The message of `src/unnamed/part_000` (blank line between header
and commit lines). -/
def formatMessage (ev : PushEvent) : String :=
  "🚀 *" ++ ev.pusher.name ++ "* pushed to [" ++ ev.repository.name
    ++ "](" ++ ev.repository.html_url ++ "):\n\n" ++ commitMessages ev.commits

/-- The message of `src/main.ts` (single newline between header and
commit lines). -/
def mainFormatMessage (ev : PushEvent) : String :=
  "🚀 *" ++ ev.pusher.name ++ "* pushed to [" ++ ev.repository.name
    ++ "](" ++ ev.repository.html_url ++ "):\n" ++ commitMessages ev.commits

/-! ## Decoding the dynamic body into the declared interface

The handlers destructure `req.body` according to the declared
`GithubPushEvent` interface.  A payload whose fields pass the
truthiness check but do not match that shape makes the JavaScript
handler proceed dynamically (possibly throwing a `TypeError` on
`c.id.slice`); that path is outside every claim and is embedded as a
`none` result. -/

/-- The string carried by a JSON string value. -/
def asStr : Jv → Option String
  | .str s => some s
  | _ => none

/-- A JSON array of strings, as a list. -/
def asStrList : Jv → Option (List String)
  | .arr es => es.mapM asStr
  | _ => none

/-- An optional field holding a value decoded by `f`. -/
def decodeOptField (fields : List (String × Jv)) (key : String)
    (f : Jv → Option α) : Option (Option α) :=
  match fields.lookup key with
  | none => some none
  | some v => (f v).map some

/-- A commit object of the declared interface shape. -/
def decodeCommit : Jv → Option Commit
  | .obj fields => do
    let id ← (fields.lookup "id").bind asStr
    let message ← (fields.lookup "message").bind asStr
    let url ← (fields.lookup "url").bind asStr
    let author ← decodeOptField fields "author" fun v =>
      match v with
      | .obj afields => ((afields.lookup "name").bind asStr).map CommitAuthor.mk
      | _ => none
    let added ← decodeOptField fields "added" asStrList
    let modified ← decodeOptField fields "modified" asStrList
    let removed ← decodeOptField fields "removed" asStrList
    pure ⟨id, message, url, author, added, modified, removed⟩
  | _ => none

/-- The pusher object of the declared interface shape. -/
def decodePusher : Jv → Option Pusher
  | .obj fields => ((fields.lookup "name").bind asStr).map Pusher.mk
  | _ => none

/-- The repository object of the declared interface shape. -/
def decodeRepository : Jv → Option Repository
  | .obj fields => do
    let name ← (fields.lookup "name").bind asStr
    let html_url ← (fields.lookup "html_url").bind asStr
    pure ⟨name, html_url⟩
  | _ => none

/-- The whole body as a typed `PushEvent`. -/
def decodeEvent (body : RequestBody) : Option PushEvent := do
  let pv ← body.pusher
  let p ← decodePusher pv
  let rv ← body.repository
  let r ← decodeRepository rv
  let cv ← body.commits
  let cs ← match cv with
    | .arr es => es.mapM decodeCommit
    | _ => none
  pure ⟨p, r, cs⟩

/-- The JSON encoding of a pusher, for building concrete requests. -/
def encodePusher (p : Pusher) : Jv := .obj [("name", .str p.name)]

/-- The JSON encoding of a repository, for building concrete
requests. -/
def encodeRepository (r : Repository) : Jv :=
  .obj [("name", .str r.name), ("html_url", .str r.html_url)]

/-! ## Signature verification (`src/unnamed/part_000`, lines 99–115) -/

/-- `signatureHeader.startsWith('sha256=')`, by character lists so it
reduces definitionally (the prefix is ASCII, so character and code-unit
semantics coincide). -/
def strStartsWith (s pre : String) : Bool :=
  s.data.take pre.data.length == pre.data

/-- `signatureHeader.slice('sha256='.length)`: drop the first `n`
characters, by character lists so it reduces definitionally. -/
def strDrop (s : String) (n : Nat) : String := ⟨s.data.drop n⟩

/-- Node's `crypto.timingSafeEqual`: defined (as buffer equality) only
on buffers of equal length; it throws on unequal lengths, embedded as
`none`. -/
def timingSafeEqual (a b : List Nat) : Option Bool :=
  if a.length = b.length then some (a == b) else none

/-- Outcome of the signature-validation block. -/
inductive SigResult where
  | missingHeader
  | missingRawBody
  | mismatch
  | valid
deriving DecidableEq

/-- The signature-validation block of the `part_000` handler, run once
the project secret is known to be truthy: header prefix check, raw-body
check, HMAC-SHA-256 of the raw body keyed by the secret, hex decoding
of both sides and the length-guarded `timingSafeEqual` comparison. -/
def verifySignature (secret : String) (signatureHeader : Option String)
    (rawBody : Option (List Nat)) : SigResult :=
  match signatureHeader with
  | none => .missingHeader
  | some header =>
    if header == "" || !strStartsWith header "sha256=" then .missingHeader
    else match rawBody with
      | none => .missingRawBody
      | some raw =>
        let digest := hexEncode (hmacSha256 (utf8Bytes secret) raw)
        let signature := strDrop header 7
        let sigBuf := nodeHexDecode signature.data
        let digestBuf := nodeHexDecode digest.data
        if sigBuf.length ≠ digestBuf.length then .mismatch
        else if timingSafeEqual sigBuf digestBuf ≠ some true then .mismatch
        else .valid

/-! ## The two webhook handlers -/

/-- The shared tail of both handlers: payload truthiness validation,
formatting, and the single Telegram send attempt (`deliveryOk` is
whether the awaited `axios.post` resolves).  The pair is the HTTP
response (`none` for the unembedded ill-typed-payload path) and the
list of Notifier invocations. -/
def handlePayload (apiDomain botToken : String) (chatId : ChatId)
    (threadId : Option Int) (parseMode : String) (fmt : PushEvent → String)
    (body : RequestBody) (deliveryOk : Bool) :
    Option HttpResponse × List SendCall :=
  if !truthyOpt body.pusher || !truthyOpt body.repository
      || !truthyOpt body.commits then
    (some ⟨400, "Malformed GitHub push event payload"⟩, [])
  else match decodeEvent body with
    | none => (none, [])
    | some ev =>
      let message := fmt ev
      let call : SendCall :=
        { url := apiDomain ++ "/bot" ++ botToken ++ "/sendMessage"
          chat_id := some chatId
          message_thread_id := threadId
          text := message
          parse_mode := parseMode
          disable_web_page_preview := true }
      if deliveryOk then (some ⟨200, "OK"⟩, [call])
      else (some ⟨500, "Failed to send Telegram message"⟩, [call])

/-- The property names of `Object.prototype` (V8): a JavaScript
property read `record[key]` on a `JSON.parse` object finds these even
when `key` is not an own key, and the inherited value (a function, or
the prototype object itself for `__proto__`) is truthy. -/
def objectPrototypeKeys : List String :=
  ["constructor", "__defineGetter__", "__defineSetter__", "hasOwnProperty",
   "__lookupGetter__", "__lookupSetter__", "isPrototypeOf",
   "propertyIsEnumerable", "toString", "valueOf", "__proto__",
   "toLocaleString"]

/-- Result of `projectConfigs[projectName]`: an own property (a
project config), a truthy non-config member inherited from
`Object.prototype`, or `undefined`. -/
inductive JsLookup (α : Type) where
  | own (value : α)
  | inherited
  | missing

/-- `projectConfigs[projectName]` with JavaScript property-lookup
semantics: own keys first, then the `Object.prototype` chain, then
`undefined`. -/
def jsRecordGet (configs : List (String × α)) (key : String) : JsLookup α :=
  match configs.lookup key with
  | some cfg => .own cfg
  | none =>
    if objectPrototypeKeys.contains key then .inherited else .missing

/-- The payload stage of `src/main.ts` when the config lookup hit an
`Object.prototype` member: `config.botToken`, `config.chatId` and
`config.threadId` are all `undefined`, so the URL renders the token as
the text `undefined` and the JSON body omits `chat_id` and
`message_thread_id`; the outbound send is still attempted. -/
def handlePayloadInherited (apiDomain : String) (body : RequestBody)
    (deliveryOk : Bool) : Option HttpResponse × List SendCall :=
  if !truthyOpt body.pusher || !truthyOpt body.repository
      || !truthyOpt body.commits then
    (some ⟨400, "Malformed GitHub push event payload"⟩, [])
  else match decodeEvent body with
    | none => (none, [])
    | some ev =>
      let call : SendCall :=
        { url := apiDomain ++ "/bot" ++ "undefined" ++ "/sendMessage"
          chat_id := none
          message_thread_id := none
          text := mainFormatMessage ev
          parse_mode := "Markdown"
          disable_web_page_preview := true }
      if deliveryOk then (some ⟨200, "OK"⟩, [call])
      else (some ⟨500, "Failed to send Telegram message"⟩, [call])

/-- The `POST /webhook/:projectName` handler of `src/unnamed/part_000`:
config lookup (with prototype-chain semantics), ping acknowledgment,
secret guard, signature validation, then the shared payload stage with
the `MarkdownV2` parse mode and the blank-line message format.  On a
prototype-chain hit, `!config` is false, so the handler proceeds: the
ping branch still answers 200 `pong`, and otherwise
`config.webhookSecret` is `undefined`, so the secret guard answers
500. -/
def webhookPost (apiDomain : String)
    (configs : List (String × ProjectConfig)) (req : RequestModel)
    (deliveryOk : Bool) : Option HttpResponse × List SendCall :=
  match jsRecordGet configs req.projectName with
  | .missing => (some ⟨404, "Project config not found"⟩, [])
  | .inherited =>
    if req.githubEvent == some "ping" then (some ⟨200, "pong"⟩, [])
    else (some ⟨500, "Webhook secret not configured for this project"⟩, [])
  | .own config =>
    if req.githubEvent == some "ping" then (some ⟨200, "pong"⟩, [])
    else match config.webhookSecret with
      | none => (some ⟨500, "Webhook secret not configured for this project"⟩, [])
      | some secret =>
        if secret == "" then
          (some ⟨500, "Webhook secret not configured for this project"⟩, [])
        else match verifySignature secret req.signature256 req.rawBody with
          | .missingHeader => (some ⟨401, "Missing or invalid signature"⟩, [])
          | .missingRawBody =>
            (some ⟨400, "Missing raw body for signature validation"⟩, [])
          | .mismatch => (some ⟨401, "Invalid signature"⟩, [])
          | .valid =>
            handlePayload apiDomain config.botToken config.chatId
              config.threadId "MarkdownV2" formatMessage req.body deliveryOk

/-- The `POST /webhook/:projectName` handler of `src/main.ts`: config
lookup (with prototype-chain semantics) then directly the shared
payload stage with the `Markdown` parse mode and the single-newline
message format (no ping branch, no signature validation).  On a
prototype-chain hit, `!config` is false and the handler proceeds with
`undefined` config fields, still attempting the outbound send. -/
def mainWebhookPost (apiDomain : String)
    (configs : List (String × MainProjectConfig)) (req : RequestModel)
    (deliveryOk : Bool) : Option HttpResponse × List SendCall :=
  match jsRecordGet configs req.projectName with
  | .missing => (some ⟨404, "Project config not found"⟩, [])
  | .inherited => handlePayloadInherited apiDomain req.body deliveryOk
  | .own config =>
    handlePayload apiDomain config.botToken config.chatId config.threadId
      "Markdown" mainFormatMessage req.body deliveryOk

end GithubTelegram
namespace GithubTelegram

/-! ## Supporting lemmas -/

/-- Each hex digit decodes back to its value. -/
theorem hexVal_hexDigit : ∀ n, n < 16 → hexVal (hexDigit n) = some n := by decide

/-- Hex encoding of genuine bytes round-trips through Node's hex
decoder. -/
theorem nodeHexDecode_hexChars (bs : List Nat) (h : ∀ b ∈ bs, b < 256) :
    nodeHexDecode (hexChars bs) = bs := by
  induction bs with
  | nil => rfl
  | cons b bs ih =>
    have hb : b < 256 := h b (List.mem_cons_self b bs)
    have hdiv : b / 16 < 16 := by omega
    have hmod : b % 16 < 16 := Nat.mod_lt _ (by norm_num)
    have hrest : ∀ x ∈ bs, x < 256 := fun x hx => h x (List.mem_cons_of_mem _ hx)
    simp only [hexChars, nodeHexDecode, hexVal_hexDigit _ hdiv,
      hexVal_hexDigit _ hmod, ih hrest]
    congr 1
    omega

/-- The character list of a hex-encoded byte string. -/
theorem hexEncode_data (bs : List Nat) :
    (hexEncode bs).data = hexChars bs := rfl

/-- `wordsToBytes` produces four bytes per word. -/
theorem wordsToBytes_length (ws : List Nat) :
    (wordsToBytes ws).length = 4 * ws.length := by
  induction ws with
  | nil => rfl
  | cons w ws ih =>
    simp [wordsToBytes, wordBytes] at ih ⊢
    omega

/-- `wordsToBytes` produces genuine bytes. -/
theorem wordsToBytes_lt (ws : List Nat) : ∀ b ∈ wordsToBytes ws, b < 256 := by
  induction ws with
  | nil => simp [wordsToBytes]
  | cons w ws ih =>
    intro b hb
    simp only [wordsToBytes, List.map_cons, List.flatten_cons,
      List.mem_append] at hb
    rcases hb with hb | hb
    · simp only [wordBytes, List.mem_cons, List.not_mem_nil, or_false] at hb
      rcases hb with rfl | rfl | rfl | rfl <;> exact Nat.mod_lt _ (by norm_num)
    · exact ih b hb

/-- SHA-256 yields 32 bytes. -/
theorem sha256_length (msg : List Nat) : (sha256 msg).length = 32 := by
  rw [sha256, wordsToBytes_length, sha256Words]
  rfl

/-- SHA-256 yields genuine bytes. -/
theorem sha256_lt (msg : List Nat) : ∀ b ∈ sha256 msg, b < 256 :=
  wordsToBytes_lt _

/-- HMAC-SHA-256 yields 32 bytes. -/
theorem hmacSha256_length (key msg : List Nat) :
    (hmacSha256 key msg).length = 32 := sha256_length _

/-- HMAC-SHA-256 yields genuine bytes. -/
theorem hmacSha256_lt (key msg : List Nat) :
    ∀ b ∈ hmacSha256 key msg, b < 256 := sha256_lt _

/-- Decoding the hex rendering of the HMAC digest recovers the digest
bytes: the `digestBuf` of the handler equals the raw digest. -/
theorem nodeHexDecode_digest (key msg : List Nat) :
    nodeHexDecode (hexEncode (hmacSha256 key msg)).data = hmacSha256 key msg := by
  rw [hexEncode_data]
  exact nodeHexDecode_hexChars _ (hmacSha256_lt key msg)

end GithubTelegram
namespace GithubTelegram

/-! ## Stage-reduction helper lemmas (shared by several claims) -/

/-- An own key makes the JavaScript lookup return its config. -/
theorem jsRecordGet_own {α : Type} (configs : List (String × α))
    (key : String) (cfg : α) (h : configs.lookup key = some cfg) :
    jsRecordGet configs key = .own cfg := by
  simp [jsRecordGet, h]

/-- A key that is neither an own key nor an `Object.prototype` member
makes the JavaScript lookup return `undefined`. -/
theorem jsRecordGet_missing {α : Type} (configs : List (String × α))
    (key : String) (h1 : configs.lookup key = none)
    (h2 : objectPrototypeKeys.contains key = false) :
    jsRecordGet configs key = (.missing : JsLookup α) := by
  simp at h2
  simp [jsRecordGet, h1, h2]

/-- A non-own key that names an `Object.prototype` member makes the
JavaScript lookup return the truthy inherited value. -/
theorem jsRecordGet_inherited {α : Type} (configs : List (String × α))
    (key : String) (h1 : configs.lookup key = none)
    (h2 : objectPrototypeKeys.contains key = true) :
    jsRecordGet configs key = (.inherited : JsLookup α) := by
  simp at h2
  simp [jsRecordGet, h1, h2]

/-- Past a found config, a non-ping event, a truthy secret and a valid
signature, the `part_000` handler is exactly the shared payload
stage. -/
theorem webhookPost_valid_sig (apiDomain : String)
    (configs : List (String × ProjectConfig)) (cfg : ProjectConfig)
    (req : RequestModel) (deliveryOk : Bool) (s : String)
    (hfound : configs.lookup req.projectName = some cfg)
    (hping : req.githubEvent ≠ some "ping")
    (hsec : cfg.webhookSecret = some s) (hne : s ≠ "")
    (hsig : verifySignature s req.signature256 req.rawBody = .valid) :
    webhookPost apiDomain configs req deliveryOk
      = handlePayload apiDomain cfg.botToken cfg.chatId cfg.threadId
          "MarkdownV2" formatMessage req.body deliveryOk := by
  have hg := jsRecordGet_own configs req.projectName cfg hfound
  have hb : (req.githubEvent == some "ping") = false :=
    beq_eq_false_iff_ne.2 hping
  have hs : (s == "") = false := beq_eq_false_iff_ne.2 hne
  simp [webhookPost, hg, hb, hsec, hs, hsig]

/-- A request body with a present-but-falsy top-level field fails the
truthiness validation with the malformed-payload response. -/
theorem handlePayload_falsy (apiDomain botToken : String) (chatId : ChatId)
    (threadId : Option Int) (parseMode : String) (fmt : PushEvent → String)
    (body : RequestBody) (deliveryOk : Bool)
    (h : (∃ v, body.pusher = some v ∧ truthy v = false) ∨
         (∃ v, body.repository = some v ∧ truthy v = false) ∨
         (∃ v, body.commits = some v ∧ truthy v = false)) :
    handlePayload apiDomain botToken chatId threadId parseMode fmt body
        deliveryOk
      = (some ⟨400, "Malformed GitHub push event payload"⟩, []) := by
  rcases h with ⟨v, hv, ht⟩ | ⟨v, hv, ht⟩ | ⟨v, hv, ht⟩ <;>
    simp [handlePayload, truthyOpt, hv, ht]

/-- A request body with an absent top-level field fails the truthiness
validation with the malformed-payload response. -/
theorem handlePayload_missing (apiDomain botToken : String) (chatId : ChatId)
    (threadId : Option Int) (parseMode : String) (fmt : PushEvent → String)
    (body : RequestBody) (deliveryOk : Bool)
    (h : body.pusher = none ∨ body.repository = none ∨ body.commits = none) :
    handlePayload apiDomain botToken chatId threadId parseMode fmt body
        deliveryOk
      = (some ⟨400, "Malformed GitHub push event payload"⟩, []) := by
  rcases h with hv | hv | hv <;> simp [handlePayload, truthyOpt, hv]

/-- Past a found config, the `main.ts` handler is exactly the shared
payload stage. -/
theorem mainWebhookPost_found (apiDomain : String)
    (configs : List (String × MainProjectConfig)) (cfg : MainProjectConfig)
    (req : RequestModel) (deliveryOk : Bool)
    (hfound : configs.lookup req.projectName = some cfg) :
    mainWebhookPost apiDomain configs req deliveryOk
      = handlePayload apiDomain cfg.botToken cfg.chatId cfg.threadId
          "Markdown" mainFormatMessage req.body deliveryOk := by
  have hg := jsRecordGet_own configs req.projectName cfg hfound
  simp [mainWebhookPost, hg]

/-! ## Claims -/

/-- C6 counterexample: projectName `toString` is not a key of the
(empty) loaded configs, yet `projectConfigs["toString"]` finds the
truthy inherited `Object.prototype.toString`, so the `part_000` handler
answers 500 (secret not configured) instead of 404, and the `main.ts`
handler with a well-formed push body proceeds all the way to the
outbound send — the Notifier IS invoked for an unknown project. -/
theorem C6_counterexample :
    (webhookPost "https://api.telegram.org" []
        ⟨"toString", none, none, none, ⟨none, none, none⟩⟩ true).1
      ≠ some ⟨404, "Project config not found"⟩ ∧
    webhookPost "https://api.telegram.org" []
        ⟨"toString", none, none, none, ⟨none, none, none⟩⟩ true
      = (some ⟨500, "Webhook secret not configured for this project"⟩, []) ∧
    (mainWebhookPost "https://api.telegram.org" []
        ⟨"toString", none, none, none,
          ⟨some (encodePusher ⟨"alice"⟩),
            some (encodeRepository ⟨"repo", "https://x"⟩),
            some (.arr [])⟩⟩ true).2
      ≠ [] := by
  refine ⟨by decide, by decide, by decide⟩

/-- C6 (amended): for every request whose `projectName` is neither a
key of the loaded project configs nor the name of an `Object.prototype`
member, both handlers respond 404 with the config-not-found error and
the Notifier is never invoked.  For a non-key `projectName` that names
an `Object.prototype` member the lookup finds a truthy inherited value,
so the handlers do not 404: `part_000` answers 200 `pong` for ping and
500 (secret not configured) otherwise, and `main.ts` proceeds to the
payload stage with `undefined` config fields and may invoke the
Notifier. -/
theorem C6_unknown_name_404 :
    (∀ (apiDomain : String) (configs : List (String × ProjectConfig))
        (req : RequestModel) (deliveryOk : Bool),
        configs.lookup req.projectName = none →
        objectPrototypeKeys.contains req.projectName = false →
        webhookPost apiDomain configs req deliveryOk
          = (some ⟨404, "Project config not found"⟩, [])) ∧
    (∀ (apiDomain : String) (configs : List (String × MainProjectConfig))
        (req : RequestModel) (deliveryOk : Bool),
        configs.lookup req.projectName = none →
        objectPrototypeKeys.contains req.projectName = false →
        mainWebhookPost apiDomain configs req deliveryOk
          = (some ⟨404, "Project config not found"⟩, [])) ∧
    (∀ (apiDomain : String) (configs : List (String × ProjectConfig))
        (req : RequestModel) (deliveryOk : Bool),
        configs.lookup req.projectName = none →
        objectPrototypeKeys.contains req.projectName = true →
        req.githubEvent ≠ some "ping" →
        webhookPost apiDomain configs req deliveryOk
          = (some ⟨500, "Webhook secret not configured for this project"⟩, [])) ∧
    (∀ (apiDomain : String) (configs : List (String × MainProjectConfig))
        (req : RequestModel) (deliveryOk : Bool),
        configs.lookup req.projectName = none →
        objectPrototypeKeys.contains req.projectName = true →
        mainWebhookPost apiDomain configs req deliveryOk
          = handlePayloadInherited apiDomain req.body deliveryOk) := by
  refine ⟨?_, ?_, ?_, ?_⟩
  · intro apiDomain configs req deliveryOk hc hp
    have hg := jsRecordGet_missing configs req.projectName hc hp
    simp [webhookPost, hg]
  · intro apiDomain configs req deliveryOk hc hp
    have hg := jsRecordGet_missing configs req.projectName hc hp
    simp [mainWebhookPost, hg]
  · intro apiDomain configs req deliveryOk hc hp hping
    have hg := jsRecordGet_inherited configs req.projectName hc hp
    have hb : (req.githubEvent == some "ping") = false :=
      beq_eq_false_iff_ne.2 hping
    simp [webhookPost, hg, hb]
  · intro apiDomain configs req deliveryOk hc hp
    have hg := jsRecordGet_inherited configs req.projectName hc hp
    simp [mainWebhookPost, hg]

/-- Witness for C6 (amended): the genuinely-unknown name `p` answers
404 in both variants; the prototype name `toString` answers 500 in the
verifying variant and reaches the inherited payload stage in the
other. -/
theorem C6_unknown_name_404_witness :
    webhookPost "https://api.telegram.org" []
        ⟨"p", none, none, none, ⟨none, none, none⟩⟩ true
      = (some ⟨404, "Project config not found"⟩, []) ∧
    mainWebhookPost "https://api.telegram.org" []
        ⟨"p", none, none, none, ⟨none, none, none⟩⟩ true
      = (some ⟨404, "Project config not found"⟩, []) ∧
    webhookPost "https://api.telegram.org" []
        ⟨"toString", none, none, none, ⟨none, none, none⟩⟩ true
      = (some ⟨500, "Webhook secret not configured for this project"⟩, []) ∧
    mainWebhookPost "https://api.telegram.org" []
        ⟨"toString", none, none, none, ⟨none, none, none⟩⟩ true
      = handlePayloadInherited "https://api.telegram.org"
          ⟨none, none, none⟩ true :=
  ⟨C6_unknown_name_404.1 _ _ _ _ rfl (by decide),
   C6_unknown_name_404.2.1 _ _ _ _ rfl (by decide),
   C6_unknown_name_404.2.2.1 _ _ _ _ rfl (by decide) (by decide),
   C6_unknown_name_404.2.2.2 _ _ _ _ rfl (by decide)⟩

/-- C7: every commit renders as exactly one line of the template
`- <message> ([<7-char id prefix>](<url>)) by <author name or
"unknown"> (added: n, modified: n, removed: n)` with counts 0 for
absent lists; in particular the spec's example commit renders exactly
as stated, and a commit with no author and no file lists renders `by
unknown` with all counts 0. -/
theorem C7_commit_line_format :
    (∀ c : Commit,
        formatCommit c
          = "- " ++ c.message ++ " ([" ++ c.id.take 7 ++ "](" ++ c.url
              ++ ")) by " ++ authorName c.author
              ++ " (added: " ++ toString (listCount c.added)
              ++ ", modified: " ++ toString (listCount c.modified)
              ++ ", removed: " ++ toString (listCount c.removed) ++ ")") ∧
    formatCommit ⟨"abcdef1234567", "fix bug", "https://x/commit/abcdef1234567",
        some ⟨"alice"⟩, some ["a.txt"], some [], some []⟩
      = "- fix bug ([abcdef1](https://x/commit/abcdef1234567)) by alice (added: 1, modified: 0, removed: 0)" ∧
    formatCommit ⟨"abcdef1234567", "fix bug", "https://x/commit/abcdef1234567",
        none, none, none, none⟩
      = "- fix bug ([abcdef1](https://x/commit/abcdef1234567)) by unknown (added: 0, modified: 0, removed: 0)" := by
  refine ⟨fun c => rfl, by decide, by decide⟩

/-- C8: message formatting is a pure function of the `PushEvent` in
this embedding, so formatting the same event twice yields byte-identical
text, for both handler variants. -/
theorem C8_format_deterministic :
    (∀ ev : PushEvent, formatMessage ev = formatMessage ev) ∧
    (∀ ev : PushEvent, mainFormatMessage ev = mainFormatMessage ev) :=
  ⟨fun _ => rfl, fun _ => rfl⟩

/-- C2 counterexample: a ping request for an unknown project is
answered 404, not 200 `pong` — the claim quantifies over every incoming
request, but the config lookup precedes the ping branch. -/
theorem C2_counterexample :
    webhookPost "https://api.telegram.org" []
        ⟨"proj", some "ping", none, none, ⟨none, none, none⟩⟩ true
      = (some ⟨404, "Project config not found"⟩, []) ∧
    (webhookPost "https://api.telegram.org" []
        ⟨"proj", some "ping", none, none, ⟨none, none, none⟩⟩ true).1
      ≠ some ⟨200, "pong"⟩ := by
  constructor
  · rfl
  · decide

/-- C2 (amended): in the signature-verifying variant (`part_000`),
every request to a known project whose event-type header equals "ping"
is answered 200 `pong` without reaching the signature or payload
checks, whatever the secret configuration, signature header and body;
the `main.ts` variant has no ping branch, so there a known-project ping
request with no body falls through to payload validation and is
answered 400. -/
theorem C2_ping_pong :
    (∀ (apiDomain : String) (configs : List (String × ProjectConfig))
        (cfg : ProjectConfig) (req : RequestModel) (deliveryOk : Bool),
        configs.lookup req.projectName = some cfg →
        req.githubEvent = some "ping" →
        webhookPost apiDomain configs req deliveryOk
          = (some ⟨200, "pong"⟩, [])) ∧
    (∀ (apiDomain : String) (configs : List (String × MainProjectConfig))
        (cfg : MainProjectConfig) (req : RequestModel) (deliveryOk : Bool),
        configs.lookup req.projectName = some cfg →
        req.githubEvent = some "ping" →
        req.body = ⟨none, none, none⟩ →
        mainWebhookPost apiDomain configs req deliveryOk
          = (some ⟨400, "Malformed GitHub push event payload"⟩, [])) := by
  constructor
  · intro apiDomain configs cfg req deliveryOk hfound hping
    have hg := jsRecordGet_own configs req.projectName cfg hfound
    simp [webhookPost, hg, hping]
  · intro apiDomain configs cfg req deliveryOk hfound hping hbody
    rw [mainWebhookPost_found apiDomain configs cfg req deliveryOk hfound]
    exact handlePayload_missing _ _ _ _ _ _ _ _ (Or.inl (by rw [hbody]))

/-- Witness for C2 (amended): a known project with no configured
secret and no body, in both variants. -/
theorem C2_ping_pong_witness :
    webhookPost "https://api.telegram.org"
        [("p", ⟨"t", .num 1, none, none⟩)]
        ⟨"p", some "ping", none, none, ⟨none, none, none⟩⟩ true
      = (some ⟨200, "pong"⟩, []) ∧
    mainWebhookPost "https://api.telegram.org" [("p", ⟨"t", .num 1, none⟩)]
        ⟨"p", some "ping", none, none, ⟨none, none, none⟩⟩ true
      = (some ⟨400, "Malformed GitHub push event payload"⟩, []) :=
  ⟨C2_ping_pong.1 _ _ ⟨"t", .num 1, none, none⟩ _ _ rfl rfl,
   C2_ping_pong.2 _ _ ⟨"t", .num 1, none⟩ _ _ rfl rfl rfl⟩

/-- C3 counterexample: a non-ping request to a known project with no
configured secret fails with 500 (secret not configured) instead of
skipping verification and proceeding to payload validation (which for
this empty body would have answered 400 malformed payload). -/
theorem C3_counterexample :
    webhookPost "https://api.telegram.org"
        [("p", ⟨"t", .num 1, none, none⟩)]
        ⟨"p", none, none, none, ⟨none, none, none⟩⟩ true
      = (some ⟨500, "Webhook secret not configured for this project"⟩, []) ∧
    (webhookPost "https://api.telegram.org"
        [("p", ⟨"t", .num 1, none, none⟩)]
        ⟨"p", none, none, none, ⟨none, none, none⟩⟩ true).1
      ≠ some ⟨400, "Malformed GitHub push event payload"⟩ := by
  constructor
  · rfl
  · decide

/-- C3 (amended): in the signature-verifying variant (`part_000`) a
known project whose config has no truthy secret makes every non-ping
request fail 500 (secret not configured) without reaching payload
validation; only the variant without verification (`main.ts`) proceeds
directly to payload validation for every known project. -/
theorem C3_secret_gate :
    (∀ (apiDomain : String) (configs : List (String × ProjectConfig))
        (cfg : ProjectConfig) (req : RequestModel) (deliveryOk : Bool),
        configs.lookup req.projectName = some cfg →
        req.githubEvent ≠ some "ping" →
        (cfg.webhookSecret = none ∨ cfg.webhookSecret = some "") →
        webhookPost apiDomain configs req deliveryOk
          = (some ⟨500, "Webhook secret not configured for this project"⟩, [])) ∧
    (∀ (apiDomain : String) (configs : List (String × MainProjectConfig))
        (cfg : MainProjectConfig) (req : RequestModel) (deliveryOk : Bool),
        configs.lookup req.projectName = some cfg →
        mainWebhookPost apiDomain configs req deliveryOk
          = handlePayload apiDomain cfg.botToken cfg.chatId cfg.threadId
              "Markdown" mainFormatMessage req.body deliveryOk) := by
  constructor
  · intro apiDomain configs cfg req deliveryOk hfound hping hsec
    have hg := jsRecordGet_own configs req.projectName cfg hfound
    have hb : (req.githubEvent == some "ping") = false :=
      beq_eq_false_iff_ne.2 hping
    rcases hsec with h | h <;> simp [webhookPost, hg, hb, h]
  · intro apiDomain configs cfg req deliveryOk hfound
    exact mainWebhookPost_found apiDomain configs cfg req deliveryOk hfound

/-- Witness for C3 (amended) at a concrete empty-secret config and a
concrete known project. -/
theorem C3_secret_gate_witness :
    webhookPost "https://api.telegram.org"
        [("p", ⟨"t", .num 1, none, some ""⟩)]
        ⟨"p", none, none, none, ⟨none, none, none⟩⟩ true
      = (some ⟨500, "Webhook secret not configured for this project"⟩, []) ∧
    mainWebhookPost "https://api.telegram.org" [("p", ⟨"t", .num 1, none⟩)]
        ⟨"p", none, none, none, ⟨none, none, none⟩⟩ true
      = handlePayload "https://api.telegram.org" "t" (.num 1) none
          "Markdown" mainFormatMessage ⟨none, none, none⟩ true :=
  ⟨C3_secret_gate.1 _ _ ⟨"t", .num 1, none, some ""⟩ _ _ rfl (by decide)
      (Or.inr rfl),
   C3_secret_gate.2 _ _ ⟨"t", .num 1, none⟩ _ _ rfl⟩

end GithubTelegram
namespace GithubTelegram

set_option maxRecDepth 20000

/-- Past the prefix and raw-body checks, the verification block is the
length-guarded comparison of the hex-decoded header value with the raw
HMAC digest bytes. -/
theorem verifySignature_eq (secret header : String) (raw : List Nat)
    (hne : (header == "") = false)
    (hpre : strStartsWith header "sha256=" = true) :
    verifySignature secret (some header) (some raw)
      = (if (nodeHexDecode (strDrop header 7).data).length
            ≠ (hmacSha256 (utf8Bytes secret) raw).length then SigResult.mismatch
         else if timingSafeEqual (nodeHexDecode (strDrop header 7).data)
            (hmacSha256 (utf8Bytes secret) raw) ≠ some true then
           SigResult.mismatch
         else SigResult.valid) := by
  simp only [verifySignature, hne, hpre, Bool.not_true, Bool.or_false,
    Bool.false_or, if_false, nodeHexDecode_digest]
  simp

/-- C1 counterexample: with secret `mysecret` and raw body
`[97, 98, 99]` (`abc`), the uppercase rendering of the HMAC hex digest
is accepted by the verification block even though it is not equal to
the digest hex string after the `sha256=` prefix — Node's hex decoding
of the header is case-insensitive, so header values other than the
exact hex digest are accepted. -/
theorem C1_counterexample :
    verifySignature "mysecret"
        (some "sha256=4A08DDCA57C3DF34F96FC0DDF43B13B99478095EF4EA899FF29EAEF7CBE69C0D")
        (some [97, 98, 99]) = SigResult.valid ∧
    strDrop "sha256=4A08DDCA57C3DF34F96FC0DDF43B13B99478095EF4EA899FF29EAEF7CBE69C0D" 7
      ≠ hexEncode (hmacSha256 (utf8Bytes "mysecret") [97, 98, 99]) := by
  constructor
  · decide
  · decide

/-- C1 (amended): for every secret, raw body and signature header with
the `sha256=` prefix, verification succeeds iff the header value after
the prefix decodes, under Node's lenient hex decoding (case-insensitive
and truncating at the first non-hex pair), to exactly the 32
HMAC-SHA-256 digest bytes of the exact raw body keyed by the secret.
The exact lowercase hex digest is accepted, but so is any other header
value with the same lenient decoding. -/
theorem C1_verification_iff (secret header : String) (raw : List Nat)
    (hpre : strStartsWith header "sha256=" = true) :
    verifySignature secret (some header) (some raw) = SigResult.valid ↔
      nodeHexDecode (strDrop header 7).data
        = hmacSha256 (utf8Bytes secret) raw := by
  have hne : (header == "") = false := by
    rcases eq_or_ne header "" with rfl | h
    · exact absurd hpre (by decide)
    · exact beq_eq_false_iff_ne.2 h
  rw [verifySignature_eq secret header raw hne hpre]
  by_cases heq :
      nodeHexDecode (strDrop header 7).data = hmacSha256 (utf8Bytes secret) raw
  · rw [heq]
    simp [timingSafeEqual]
  · have hval :
        (if (nodeHexDecode (strDrop header 7).data).length
            ≠ (hmacSha256 (utf8Bytes secret) raw).length then SigResult.mismatch
         else if timingSafeEqual (nodeHexDecode (strDrop header 7).data)
            (hmacSha256 (utf8Bytes secret) raw) ≠ some true then
           SigResult.mismatch
         else SigResult.valid) ≠ SigResult.valid := by
      by_cases hlen : (nodeHexDecode (strDrop header 7).data).length
          = (hmacSha256 (utf8Bytes secret) raw).length
      · have hb : (nodeHexDecode (strDrop header 7).data
            == hmacSha256 (utf8Bytes secret) raw) = false :=
          beq_eq_false_iff_ne.2 heq
        simp [timingSafeEqual, hlen, hb]
      · simp [hlen]
    exact iff_of_false hval heq

/-- Witness for C1 (amended) at a concrete prefixed header. -/
theorem C1_verification_iff_witness :
    (strStartsWith "sha256=ab" "sha256=" = true) ∧
    (verifySignature "k" (some "sha256=ab") (some [97]) = SigResult.valid ↔
      nodeHexDecode (strDrop "sha256=ab" 7).data
        = hmacSha256 (utf8Bytes "k") [97]) :=
  ⟨by decide, C1_verification_iff "k" "sha256=ab" [97] (by decide)⟩

/-- C5: when the hex-decoded signature header differs in length from
the 32-byte digest, the verification block rejects with the
invalid-signature outcome through the length guard, and
`timingSafeEqual` is not even defined on those buffers (Node would
throw), so no unequal-length byte comparison occurs. -/
theorem C5_length_guard (secret header : String) (raw : List Nat)
    (hpre : strStartsWith header "sha256=" = true)
    (hlen : (nodeHexDecode (strDrop header 7).data).length ≠ 32) :
    verifySignature secret (some header) (some raw) = SigResult.mismatch ∧
    timingSafeEqual (nodeHexDecode (strDrop header 7).data)
        (hmacSha256 (utf8Bytes secret) raw) = none := by
  have hne : (header == "") = false := by
    rcases eq_or_ne header "" with rfl | h
    · exact absurd hpre (by decide)
    · exact beq_eq_false_iff_ne.2 h
  constructor
  · rw [verifySignature_eq secret header raw hne hpre]
    simp [hmacSha256_length, hlen]
  · simp [timingSafeEqual, hmacSha256_length, hlen]

/-- Witness for C5 at a two-hex-character signature header. -/
theorem C5_length_guard_witness :
    (strStartsWith "sha256=ab" "sha256=" = true) ∧
    (nodeHexDecode (strDrop "sha256=ab" 7).data).length ≠ 32 ∧
    verifySignature "k" (some "sha256=ab") (some [97]) = SigResult.mismatch ∧
    timingSafeEqual (nodeHexDecode (strDrop "sha256=ab" 7).data)
        (hmacSha256 (utf8Bytes "k") [97]) = none := by
  refine ⟨by decide, by decide, ?_, ?_⟩
  · exact (C5_length_guard "k" "sha256=ab" [97] (by decide) (by decide)).1
  · exact (C5_length_guard "k" "sha256=ab" [97] (by decide) (by decide)).2

/-- C4 counterexample: a known project with a configured secret, an
invalid signature header and a payload missing all three fields is
answered 401 (invalid signature), not 400 (malformed payload) — the
signature check precedes payload validation, so the 400 does not hold
regardless of signature validity. -/
theorem C4_counterexample :
    webhookPost "https://api.telegram.org"
        [("p", ⟨"t", .num 1, none, some "k"⟩)]
        ⟨"p", none, some "sha256=00", some [97], ⟨none, none, none⟩⟩ true
      = (some ⟨401, "Invalid signature"⟩, []) ∧
    (webhookPost "https://api.telegram.org"
        [("p", ⟨"t", .num 1, none, some "k"⟩)]
        ⟨"p", none, some "sha256=00", some [97], ⟨none, none, none⟩⟩ true).1
      ≠ some ⟨400, "Malformed GitHub push event payload"⟩ := by
  have h : webhookPost "https://api.telegram.org"
      [("p", ⟨"t", .num 1, none, some "k"⟩)]
      ⟨"p", none, some "sha256=00", some [97], ⟨none, none, none⟩⟩ true
      = (some ⟨401, "Invalid signature"⟩, []) := by decide
  refine ⟨h, ?_⟩
  rw [h]
  decide

/-- C4 (amended): a parsed payload missing any of `pusher`,
`repository` or `commits` is answered 400 malformed-payload whenever
the request reaches payload validation: in the verifying variant
(`part_000`) after a valid signature, and in the no-verification
variant (`main.ts`) regardless of any signature header; in the
verifying variant an invalid signature is answered 401 before payload
validation. -/
theorem C4_missing_field_400 :
    (∀ (apiDomain : String) (configs : List (String × ProjectConfig))
        (cfg : ProjectConfig) (req : RequestModel) (deliveryOk : Bool)
        (s : String),
        configs.lookup req.projectName = some cfg →
        req.githubEvent ≠ some "ping" →
        cfg.webhookSecret = some s → s ≠ "" →
        verifySignature s req.signature256 req.rawBody = SigResult.valid →
        (req.body.pusher = none ∨ req.body.repository = none ∨
          req.body.commits = none) →
        webhookPost apiDomain configs req deliveryOk
          = (some ⟨400, "Malformed GitHub push event payload"⟩, [])) ∧
    (∀ (apiDomain : String) (configs : List (String × MainProjectConfig))
        (cfg : MainProjectConfig) (req : RequestModel) (deliveryOk : Bool),
        configs.lookup req.projectName = some cfg →
        (req.body.pusher = none ∨ req.body.repository = none ∨
          req.body.commits = none) →
        mainWebhookPost apiDomain configs req deliveryOk
          = (some ⟨400, "Malformed GitHub push event payload"⟩, [])) := by
  constructor
  · intro apiDomain configs cfg req deliveryOk s hfound hping hsec hne hsig hmiss
    rw [webhookPost_valid_sig apiDomain configs cfg req deliveryOk s hfound
      hping hsec hne hsig]
    exact handlePayload_missing _ _ _ _ _ _ _ _ hmiss
  · intro apiDomain configs cfg req deliveryOk hfound hmiss
    rw [mainWebhookPost_found apiDomain configs cfg req deliveryOk hfound]
    exact handlePayload_missing _ _ _ _ _ _ _ _ hmiss

/-- Witness for C4 (amended): a valid concrete signature with a
missing `pusher` field for the verifying variant, and a signatureless
request with a missing `pusher` for the other variant. -/
theorem C4_missing_field_400_witness :
    webhookPost "https://api.telegram.org"
        [("p", ⟨"t", .num 1, none, some "k"⟩)]
        ⟨"p", none,
          some ("sha256=" ++ hexEncode (hmacSha256 (utf8Bytes "k") [97])),
          some [97], ⟨none, none, none⟩⟩ true
      = (some ⟨400, "Malformed GitHub push event payload"⟩, []) ∧
    mainWebhookPost "https://api.telegram.org" [("p", ⟨"t", .num 1, none⟩)]
        ⟨"p", none, none, none, ⟨none, none, none⟩⟩ true
      = (some ⟨400, "Malformed GitHub push event payload"⟩, []) :=
  ⟨C4_missing_field_400.1 _ _ ⟨"t", .num 1, none, some "k"⟩ _ _ "k" rfl
      (by decide) rfl (by decide) (by decide) (Or.inl rfl),
   C4_missing_field_400.2 _ _ ⟨"t", .num 1, none⟩ _ _ rfl (Or.inl rfl)⟩

/-- C9: a payload whose `pusher`, `repository` or `commits` field is
present but falsy (empty string, 0, false or null) is answered 400
malformed-payload by both handlers once the request reaches payload
validation — validation rejects by truthiness, not only by absence. -/
theorem C9_falsy_field_400 :
    (∀ (apiDomain : String) (configs : List (String × ProjectConfig))
        (cfg : ProjectConfig) (req : RequestModel) (deliveryOk : Bool)
        (s : String),
        configs.lookup req.projectName = some cfg →
        req.githubEvent ≠ some "ping" →
        cfg.webhookSecret = some s → s ≠ "" →
        verifySignature s req.signature256 req.rawBody = SigResult.valid →
        ((∃ v, req.body.pusher = some v ∧ truthy v = false) ∨
         (∃ v, req.body.repository = some v ∧ truthy v = false) ∨
         (∃ v, req.body.commits = some v ∧ truthy v = false)) →
        webhookPost apiDomain configs req deliveryOk
          = (some ⟨400, "Malformed GitHub push event payload"⟩, [])) ∧
    (∀ (apiDomain : String) (configs : List (String × MainProjectConfig))
        (cfg : MainProjectConfig) (req : RequestModel) (deliveryOk : Bool),
        configs.lookup req.projectName = some cfg →
        ((∃ v, req.body.pusher = some v ∧ truthy v = false) ∨
         (∃ v, req.body.repository = some v ∧ truthy v = false) ∨
         (∃ v, req.body.commits = some v ∧ truthy v = false)) →
        mainWebhookPost apiDomain configs req deliveryOk
          = (some ⟨400, "Malformed GitHub push event payload"⟩, [])) := by
  constructor
  · intro apiDomain configs cfg req deliveryOk s hfound hping hsec hne hsig hfalsy
    rw [webhookPost_valid_sig apiDomain configs cfg req deliveryOk s hfound
      hping hsec hne hsig]
    exact handlePayload_falsy _ _ _ _ _ _ _ _ hfalsy
  · intro apiDomain configs cfg req deliveryOk hfound hfalsy
    rw [mainWebhookPost_found apiDomain configs cfg req deliveryOk hfound]
    exact handlePayload_falsy _ _ _ _ _ _ _ _ hfalsy

/-- Witness for C9: a present-but-empty-string `pusher` under a valid
concrete signature for the verifying variant, and a present zero
`pusher` for the other variant. -/
theorem C9_falsy_field_400_witness :
    webhookPost "https://api.telegram.org"
        [("p", ⟨"t", .num 1, none, some "k"⟩)]
        ⟨"p", none,
          some ("sha256=" ++ hexEncode (hmacSha256 (utf8Bytes "k") [97])),
          some [97], ⟨some (.str ""), some (.obj []), some (.arr [])⟩⟩ true
      = (some ⟨400, "Malformed GitHub push event payload"⟩, []) ∧
    mainWebhookPost "https://api.telegram.org" [("p", ⟨"t", .num 1, none⟩)]
        ⟨"p", none, none, none,
          ⟨some (.num 0), some (.obj []), some (.arr [])⟩⟩ true
      = (some ⟨400, "Malformed GitHub push event payload"⟩, []) :=
  ⟨C9_falsy_field_400.1 _ _ ⟨"t", .num 1, none, some "k"⟩ _ _ "k" rfl
      (by decide) rfl (by decide) (by decide) (Or.inl ⟨.str "", rfl, rfl⟩),
   C9_falsy_field_400.2 _ _ ⟨"t", .num 1, none⟩ _ _ rfl
      (Or.inl ⟨.num 0, rfl, rfl⟩)⟩

end GithubTelegram
